import Mathlib

/-!
Verification development for the `fiber_solver` repository
(`src/fiber_solver/solver.py`).

The program builds a CP-SAT model assigning fibers to links.  This file
shallowly embeds the parts of `solver.py` the verified properties are
about: the `Connection`/`Fiber`/`Link` data model, the constraint set
added by `Solver.load`, the sequence of objective-setting calls, the
coupler estimate of `Solver.__str__`, the fold of small coupler tiers,
and the control flow of the status check and of model construction.

Machine arithmetic: Python integers are unbounded, so `Int` models them
exactly.  Python float division in the coupler estimate and the
`max_length_multicore` factor 1.8 are modelled over `ℚ`; on the small
concrete values appearing in the theorems below the float results are
exact, so `ℚ` is faithful there.  Python `int(q)` truncates toward zero,
modelled by `pyInt`.
-/

namespace FiberSolver

/-- Shared attributes of `Connection` (solver.py lines 12-15): an integer
core count and an integer (rounded) length. -/
structure Conn where
  cores : Int
  length : Int
deriving DecidableEq

/-- Embeds `Connection.is_multicore` (line 17-18): `cores > 2`. -/
def isMulticore (c : Conn) : Bool := decide (2 < c.cores)

/-- Embeds `Connection.__len__` (line 26-27): `0 if self.cores <= 0 else
self.length`.  This is the "effective length" used by every length
constraint in `Solver.load`. -/
def connLen (c : Conn) : Int := if c.cores ≤ 0 then 0 else c.length

/-- Embeds `Connection.__lt__` (lines 29-33): true when the left side is
strictly smaller in both the core and the length dimension.  `Solver.load`
uses `fiber < link` as the pruning (fitness) predicate. -/
def connLt (a b : Conn) : Bool := decide (a.cores < b.cores) && decide (a.length < b.length)

/-- Embeds `Fiber` (lines 71-75): a connection plus a name and an armor
flag. -/
structure Fiber where
  conn : Conn
  name : String
  armor : Bool
deriving DecidableEq

/-- Embeds `Link` (lines 92-96): a connection plus source and destination
location names. -/
structure Link where
  conn : Conn
  source : String
  dest : String
deriving DecidableEq

/-- Embeds the configuration dictionary of `Solver.__init__` (lines
111-122).  `maxLengthMulticore` (default 1.8) is rational; the remaining
defaults are integers. -/
structure Config where
  slack : Int
  corePenalty : Int
  maxCost : Int
  maxLengthMulticore : ℚ
  maxLength : Int
  maxChain : Int
  maxCores : Int
  maxChainCore : Int
  minCoupler : Int
  maxCoupler : Int
deriving DecidableEq

/-- The `default_config` values of `Solver.__init__`. -/
def defaultConfig : Config := ⟨5, 10000, 4000, 9/5, 5, 2, 24, 2, 2, 4⟩

/-- Python `int(q)`: truncation toward zero.  For a nonnegative `q` this
coincides with the floor. -/
def pyInt (q : ℚ) : Int := q.num.tdiv q.den

/-- Integer value of a boolean decision variable. -/
def b2i : Bool → Int
  | true => 1
  | false => 0

/-- Sum of an integer-valued function over a list; models the `sum(...)`
expressions that `Solver.load` builds over the fiber and link lists. -/
def sumOver {α : Type} (f : α → Int) : List α → Int
  | [] => 0
  | a :: t => f a + sumOver f t

/-- The list of fibers a solved assignment gives to a link (the
`fib_list` of `Solver.__str__`, lines 213-216): the fibers whose decision
variable for that link is true. -/
def assigned (fibers : List Fiber) (x : Fiber → Link → Bool) (l : Link) : List Fiber :=
  fibers.filter fun f => x f l

/-- Embeds the forced-false constraints of `Solver.load` (lines 135-139):
whenever `fiber < link` the pair's decision variable is constrained to
false. -/
def forcedFalseOk (links : List Link) (fibers : List Fiber) (x : Fiber → Link → Bool) : Bool :=
  fibers.all fun f => links.all fun l => !(connLt f.conn l.conn) || !(x f l)

/-- Embeds the `AddAtMostOne` constraints of `Solver.load` (lines
141-142): each fiber is assigned to at most one link. -/
def atMostOneOk (links : List Link) (fibers : List Fiber) (x : Fiber → Link → Bool) : Bool :=
  fibers.all fun f => decide (sumOver (fun l => b2i (x f l)) links ≤ 1)

/-- Embeds the multicore branch of `Solver.load` (lines 146-158): exactly
one fiber, effective-length sum within `[len(link), int(len(link) *
max_length_multicore)]`, core sum within `[link.cores, max_cores]`. -/
def multicoreOk (cfg : Config) (fibers : List Fiber) (l : Link) (x : Fiber → Link → Bool) : Bool :=
  decide (sumOver (fun f => b2i (x f l)) fibers = 1) &&
  decide (connLen l.conn ≤ sumOver (fun f => connLen f.conn * b2i (x f l)) fibers) &&
  decide (sumOver (fun f => connLen f.conn * b2i (x f l)) fibers
            ≤ pyInt ((connLen l.conn : ℚ) * cfg.maxLengthMulticore)) &&
  decide (l.conn.cores ≤ sumOver (fun f => f.conn.cores * b2i (x f l)) fibers) &&
  decide (sumOver (fun f => f.conn.cores * b2i (x f l)) fibers ≤ cfg.maxCores)

/-- Embeds the non-multicore branch of `Solver.load` (lines 159-168):
effective-length sum plus the slack constant within `[len(link),
len(link) * max_length]`, and between 1 and `max_chain` fibers chained.
The chain-count constraint of line 167 iterates the module-level
`working_fibers`; along the script's only call path that list is the
very fiber list passed to `load`, which is what is used here (the
out-of-script behaviour of that line is modelled by `loadOutcome`). -/
def singleOk (cfg : Config) (fibers : List Fiber) (l : Link) (x : Fiber → Link → Bool) : Bool :=
  decide (connLen l.conn ≤ sumOver (fun f => connLen f.conn * b2i (x f l)) fibers + cfg.slack) &&
  decide (sumOver (fun f => connLen f.conn * b2i (x f l)) fibers + cfg.slack
            ≤ connLen l.conn * cfg.maxLength) &&
  decide (1 ≤ sumOver (fun f => b2i (x f l)) fibers) &&
  decide (sumOver (fun f => b2i (x f l)) fibers ≤ cfg.maxChain)

/-- Feasibility for the model built by `Solver.load` (lines 125-168): an
assignment of the boolean decision variables satisfies every constraint
the method adds — the forced-false prunings, the at-most-one-link-per-
fiber constraints, and the per-link capacity constraints, branching on
`link.is_multicore()`. -/
def feasible (cfg : Config) (links : List Link) (fibers : List Fiber)
    (x : Fiber → Link → Bool) : Bool :=
  forcedFalseOk links fibers x &&
  atMostOneOk links fibers x &&
  (links.all fun l => if isMulticore l.conn then multicoreOk cfg fibers l x
                      else singleOk cfg fibers l x)

/-- Embeds `Solver.cost` (lines 257-268): the penalty charged for a
(link, fiber) pair; Python `A and B or C` parses as `(A and B) or C`. -/
def costPenalty (cfg : Config) (target option : Conn) : Int :=
  if (isMulticore option && !(isMulticore target)) || decide (target.cores ≠ option.cores)
  then cfg.corePenalty else 0

/-- The first `Minimize` argument (lines 176-178): for every link, 1000
times the number of fibers assigned to it, summed over the links. -/
def objTotalFibers (links : List Link) (fibers : List Fiber)
    (x : Fiber → Link → Bool) : Int :=
  sumOver (fun l => 1000 * sumOver (fun f => b2i (x f l)) fibers) links

/-- The per-link fiber-count `Minimize` argument (line 182). -/
def objLinkFiberCount (fibers : List Fiber) (l : Link) (x : Fiber → Link → Bool) : Int :=
  sumOver (fun f => 50000 * b2i (x f l)) fibers

/-- The per-link length-overrun `Minimize` argument (lines 184-186). -/
def objLinkLenOverrun (fibers : List Fiber) (l : Link) (x : Fiber → Link → Bool) : Int :=
  sumOver (fun f => connLen f.conn * b2i (x f l)) fibers - connLen l.conn

/-- The per-link core-count `Minimize` argument (lines 189-191). -/
def objLinkCoreOverrun (fibers : List Fiber) (l : Link) (x : Fiber → Link → Bool) : Int :=
  sumOver (fun f => 10000 * f.conn.cores * b2i (x f l)) fibers

/-- The final `Minimize` argument (lines 169-174 and 194): the sum of the
mismatch penalties `cost(link, fiber)` over all pairs. -/
def objMismatch (cfg : Config) (links : List Link) (fibers : List Fiber)
    (x : Fiber → Link → Bool) : Int :=
  sumOver (fun l => sumOver (fun f => costPenalty cfg l.conn f.conn * b2i (x f l)) fibers) links

/-- The arguments of the successive `model.Minimize(...)` calls of
`Solver.load` (lines 176-194), in program order. -/
def setObjectiveSequence (cfg : Config) (links : List Link) (fibers : List Fiber) :
    List ((Fiber → Link → Bool) → Int) :=
  [objTotalFibers links fibers]
    ++ (links.flatMap fun l =>
          [objLinkFiberCount fibers l, objLinkLenOverrun fibers l, objLinkCoreOverrun fibers l])
    ++ [objMismatch cfg links fibers]

/-- The objective actually in effect after `Solver.load` returns.
`CpModel.Minimize` overwrites the model's single objective slot, so of
the successive calls only the last one survives. -/
def effectiveObjective (cfg : Config) (links : List Link) (fibers : List Fiber) :
    (Fiber → Link → Bool) → Int :=
  (setObjectiveSequence cfg links fibers).foldl (fun _ e => e) (fun _ => 0)

/-- Modelled from the spec: the single composed additive objective the
spec requires (its sections 4.3 and 9) — the sum of every term handed to
`Minimize`, i.e. all mismatch penalties plus all usage-shaping terms.
No code in the repository builds this composition; it is the spec-side
definition against which the code's effective objective is compared. -/
def composedObjective (cfg : Config) (links : List Link) (fibers : List Fiber)
    (x : Fiber → Link → Bool) : Int :=
  ((setObjectiveSequence cfg links fibers).map fun e => e x).sum

/-- Embeds the coupler tier choice of `Solver.__str__` (lines 221-226):
`max_coupler` if the link's maximum assigned core count reaches it, else
`min_coupler` if reached, else 1. -/
def couplerSize (cfg : Config) (maxCore : Int) : Int :=
  if cfg.maxCoupler ≤ maxCore then cfg.maxCoupler
  else if cfg.minCoupler ≤ maxCore then cfg.minCoupler
  else 1

/-- Embeds the coupler-count increment of `Solver.__str__` (lines
228-231) exactly as written in the source: `len(core_list) - 1 *
(max_core / couplersize)`, which by Python precedence is `fiberCount -
(maxCore / tierSize)`. -/
def couplerIncrement (cfg : Config) (fiberCount maxCore : Int) : ℚ :=
  (fiberCount : ℚ) - 1 * ((maxCore : ℚ) / ((couplerSize cfg maxCore : Int) : ℚ))

/-- Modelled from the spec (its section 4.5): the intended increment
`(fiberCount - 1) × (maxCore / tierSize)`; no code in the repository
computes this grouping. -/
def couplerIncrementIntended (cfg : Config) (fiberCount maxCore : Int) : ℚ :=
  ((fiberCount : ℚ) - 1) * ((maxCore : ℚ) / ((couplerSize cfg maxCore : Int) : ℚ))

/-- Coupler tier counts as an association list from tier size to count,
modelling the `coupler_count` defaultdict of `Solver.__str__`.  A missing
key reads as 0, like `defaultdict(int)`. -/
def lookupD (m : List (Int × ℚ)) (k : Int) : ℚ :=
  match m.find? (fun p => p.1 == k) with
  | some p => p.2
  | none => 0

/-- Embeds the fold loop of `Solver.__str__` (lines 246-249) exactly as
written: for every tier key strictly below `min_coupler`, the entry AT
THAT SMALL KEY is reassigned to `coupler_count[min_coupler] + value`; the
`min_coupler` entry itself is never written (its key is not below
`min_coupler`), so every small key reads the original `min_coupler`
count. -/
def foldBelowMin (minC : Int) (m : List (Int × ℚ)) : List (Int × ℚ) :=
  m.map fun p => if p.1 < minC then (p.1, lookupD m minC + p.2) else p

/-- Embeds the report loop of `Solver.__str__` (lines 251-254): only
tiers at least `min_coupler` are printed. -/
def reportedTiers (minC : Int) (m : List (Int × ℚ)) : List (Int × ℚ) :=
  m.filter fun p => decide (minC ≤ p.1)

/-- The terminal statuses of the CP-SAT solve. -/
inductive SolveStatus where
  | optimal
  | feasibleSol
  | infeasibleSol
  | unknownSol
deriving DecidableEq

/-- Outcome of the report when it is produced. -/
inductive ReportOutcome where
  | fullReport
  | noSolution
deriving DecidableEq

/-- Embeds the status check of `Solver.__str__` (line 204), which reads
`if self.status != cp_model.OPTIMAL and status != cp_model.FEASIBLE:`.
The second conjunct names a bare `status`, not `self.status`; the module
defines no such global, so `globalStatus` is `none` and evaluating the
conjunct raises `NameError`.  Python's `and` short-circuits, so the
`OPTIMAL` case never evaluates the bare name and proceeds to the full
report. -/
def statusGate (selfStatus : SolveStatus) (globalStatus : Option SolveStatus) :
    Except String ReportOutcome :=
  if selfStatus = SolveStatus.optimal then Except.ok ReportOutcome.fullReport
  else
    match globalStatus with
    | none => Except.error "NameError: name status is not defined"
    | some s =>
        if s ≠ SolveStatus.feasibleSol then Except.ok ReportOutcome.noSolution
        else Except.ok ReportOutcome.fullReport

/-- Embeds, for one link, the only failure point of `Solver.load`: the
chain-count constraint of line 167 sums over the module-level name
`working_fibers` instead of the `fibers` parameter.  That name is bound
only when `solver.py` runs as a script; any other caller of `load` hits a
`NameError` at the first non-multicore link.  Every other construction
step of `load` is total. -/
def addLinkConstraints (l : Link) (workingFibers : Option (List Fiber)) : Except String Unit :=
  if isMulticore l.conn then Except.ok ()
  else
    match workingFibers with
    | some _ => Except.ok ()
    | none => Except.error "NameError: name working_fibers is not defined"

/-- Embeds the control flow of `Solver.load` over the link loop:
construction completes unless a non-multicore link is reached while the
module-level `working_fibers` is unbound. -/
def loadOutcome (links : List Link) (workingFibers : Option (List Fiber)) :
    Except String Unit :=
  links.foldlM (fun _ l => addLinkConstraints l workingFibers) ()

/-! Concrete instances used by witnesses and counterexamples. -/

/-- A multicore link needing 4 cores over 100 m (the spec's scenario A). -/
def linkA : Link := ⟨⟨4, 100⟩, "HQ", "Stage"⟩

/-- A 4-core, 120 m fiber. -/
def fiberF1 : Fiber := ⟨⟨4, 120⟩, "F1", false⟩

/-- A 2-core, 60 m fiber; it is dominated by `linkA` in both dimensions
and hence pruned there. -/
def fiberF2 : Fiber := ⟨⟨2, 60⟩, "F2", false⟩

/-- The assignment taking only F1 (to every link). -/
def xOnlyF1 : Fiber → Link → Bool := fun f _ => f.name == "F1"

/-- A single-core link needing 1 core over 50 m (the spec's scenario B). -/
def linkB : Link := ⟨⟨1, 50⟩, "A", "B"⟩

/-- A 1-core, 20 m fiber. -/
def fiberB1 : Fiber := ⟨⟨1, 20⟩, "B1", false⟩

/-- A 1-core, 25 m fiber. -/
def fiberB2 : Fiber := ⟨⟨1, 25⟩, "B2", false⟩

/-- The assignment setting every decision variable to true. -/
def xAll : Fiber → Link → Bool := fun _ _ => true

/-- The default configuration with the slack set to 0 (a legal override
of the `slack` parameter). -/
def cfgSlack0 : Config := ⟨0, 10000, 4000, 9/5, 5, 2, 24, 2, 2, 4⟩

/-- A zero-core link of length 50: `Connection.__len__` reports 0 for
it. -/
def linkZ : Link := ⟨⟨0, 50⟩, "Z1", "Z2"⟩

/-- A zero-core fiber of length 30: `Connection.__len__` reports 0 for
it. -/
def fiberZ : Fiber := ⟨⟨0, 30⟩, "FZ", false⟩

/-- A single-core link of length 10. -/
def linkC : Link := ⟨⟨1, 10⟩, "C1", "C2"⟩

/-- A single-core fiber of length 10. -/
def fiberC : Fiber := ⟨⟨1, 10⟩, "FC", false⟩

/-! Helper lemmas about `sumOver`. -/

/-- Summing the indicator of a predicate counts the filtered elements. -/
theorem sumOver_count {α : Type} (p : α → Bool) (l : List α) :
    sumOver (fun a => b2i (p a)) l = ((l.filter p).length : Int) := by
  induction l with
  | nil => rfl
  | cons a t ih =>
    simp only [sumOver, List.filter_cons]
    cases h : p a
    · rw [ih, if_neg (by decide)]
      simp [b2i]
    · rw [ih, if_pos rfl, List.length_cons]
      simp only [b2i]
      omega

/-- Summing `v` weighted by a boolean indicator equals summing `v` over
the filtered list. -/
theorem sumOver_weight {α : Type} (p : α → Bool) (v : α → Int) (l : List α) :
    sumOver (fun a => v a * b2i (p a)) l = sumOver v (l.filter p) := by
  induction l with
  | nil => rfl
  | cons a t ih =>
    simp only [sumOver, List.filter_cons]
    cases h : p a
    · rw [ih, if_neg (by decide)]
      simp [b2i]
    · rw [ih, if_pos rfl]
      simp [sumOver, b2i]

/-- Splitting a feasibility hypothesis into its three constraint
groups. -/
theorem feasible_split {cfg : Config} {links : List Link} {fibers : List Fiber}
    {x : Fiber → Link → Bool} (h : feasible cfg links fibers x = true) :
    forcedFalseOk links fibers x = true ∧ atMostOneOk links fibers x = true ∧
    (links.all fun l => if isMulticore l.conn then multicoreOk cfg fibers l x
                        else singleOk cfg fibers l x) = true := by
  simpa [feasible, Bool.and_eq_true, and_assoc] using h

/-! Theorems settling the claims. -/

/-- C1: the code issues successive `Minimize` calls, and `CpModel` keeps
only the last objective set, so the objective actually handed to the
solver is just the mismatch-penalty sum; the composed additive objective
the spec requires (mismatch penalties plus all usage-shaping terms)
differs from it already on a one-link, one-fiber instance: the effective
objective of the perfectly matched assignment is 0 while the composed
one is 61000. -/
theorem c1_objective_overwrite :
    effectiveObjective defaultConfig [linkC] [fiberC] xAll = 0 ∧
    composedObjective defaultConfig [linkC] [fiberC] xAll = 61000 ∧
    effectiveObjective defaultConfig [linkC] [fiberC] xAll
      ≠ composedObjective defaultConfig [linkC] [fiberC] xAll := by
  decide

/-- C2: for every multicore link, every feasible solution of the built
model assigns exactly one fiber, the sum of the assigned fiber lengths
lies within `[link.length, int(link.length * maxLengthMulticoreFactor)]`
(for the nonnegative products in scope, Python `int` truncation is the
floor of the claim), and the sum of the assigned fiber core counts lies
within `[link.cores, maxCores]`. -/
theorem c2_multicore_link_bounds (cfg : Config) (links : List Link) (fibers : List Fiber)
    (x : Fiber → Link → Bool) (l : Link) (hl : l ∈ links)
    (hmc : isMulticore l.conn = true)
    (hfeas : feasible cfg links fibers x = true) :
    (assigned fibers x l).length = 1 ∧
    (l.conn.length ≤ sumOver (fun f => f.conn.length) (assigned fibers x l) ∧
      sumOver (fun f => f.conn.length) (assigned fibers x l)
        ≤ pyInt ((l.conn.length : ℚ) * cfg.maxLengthMulticore)) ∧
    (l.conn.cores ≤ sumOver (fun f => f.conn.cores) (assigned fibers x l) ∧
      sumOver (fun f => f.conn.cores) (assigned fibers x l) ≤ cfg.maxCores) := by
  have hlink := List.all_eq_true.mp (feasible_split hfeas).2.2 l hl
  rw [hmc] at hlink
  rw [if_pos rfl] at hlink
  simp only [multicoreOk, Bool.and_eq_true, decide_eq_true_eq] at hlink
  obtain ⟨⟨⟨⟨h1, h2⟩, h3⟩, h4⟩, h5⟩ := hlink
  have hmc' : 2 < l.conn.cores := by
    simpa [isMulticore] using hmc
  have hlenl : connLen l.conn = l.conn.length := by
    simp only [connLen]
    rw [if_neg (by omega)]
  have hcount : ((fibers.filter fun f => x f l).length : Int) = 1 := by
    rw [← sumOver_count]
    exact h1
  have hlen1 : (assigned fibers x l).length = 1 := by
    simp only [assigned]
    exact_mod_cast hcount
  obtain ⟨f0, hf0⟩ := List.length_eq_one.mp hlen1
  have hf0' : (fibers.filter fun f => x f l) = [f0] := hf0
  have hS : sumOver (fun f => connLen f.conn * b2i (x f l)) fibers = connLen f0.conn := by
    rw [sumOver_weight, hf0']
    simp [sumOver]
  have hC : sumOver (fun f => f.conn.cores * b2i (x f l)) fibers = f0.conn.cores := by
    rw [sumOver_weight, hf0']
    simp [sumOver]
  have hpos : 0 < f0.conn.cores := by
    rw [hC] at h4
    omega
  have hlenf0 : connLen f0.conn = f0.conn.length := by
    simp only [connLen]
    rw [if_neg (by omega)]
  have hgoalS : sumOver (fun f => f.conn.length) (assigned fibers x l) = f0.conn.length := by
    rw [hf0]
    simp [sumOver]
  have hgoalC : sumOver (fun f => f.conn.cores) (assigned fibers x l) = f0.conn.cores := by
    rw [hf0]
    simp [sumOver]
  rw [hlenl] at h2 h3
  refine ⟨hlen1, ⟨?_, ?_⟩, ?_, ?_⟩ <;> omega

unseal Rat.mul Rat.inv Rat.add Rat.sub in
/-- Witness for C2 at the spec's scenario A: link needing 4 cores over
100 m, fibers F1 (4 cores, 120 m) and F2 (2 cores, 60 m), F1 assigned. -/
theorem c2_multicore_link_bounds_witness :
    (assigned [fiberF1, fiberF2] xOnlyF1 linkA).length = 1 ∧
    (linkA.conn.length
        ≤ sumOver (fun f => f.conn.length) (assigned [fiberF1, fiberF2] xOnlyF1 linkA) ∧
      sumOver (fun f => f.conn.length) (assigned [fiberF1, fiberF2] xOnlyF1 linkA)
        ≤ pyInt ((linkA.conn.length : ℚ) * defaultConfig.maxLengthMulticore)) ∧
    (linkA.conn.cores
        ≤ sumOver (fun f => f.conn.cores) (assigned [fiberF1, fiberF2] xOnlyF1 linkA) ∧
      sumOver (fun f => f.conn.cores) (assigned [fiberF1, fiberF2] xOnlyF1 linkA)
        ≤ defaultConfig.maxCores) :=
  c2_multicore_link_bounds defaultConfig [linkA] [fiberF1, fiberF2] xOnlyF1 linkA
    (by decide) (by decide) (by decide)

/-- C3 counterexample: the claim reads the bound over the fibers' true
lengths, but `Solver.load` sums `len(fiber)`, which is 0 for any
connection with a nonpositive core count.  With slack overridden to 0, a
zero-core link of length 50 and a zero-core fiber of length 30 give a
feasible assignment whose true-length sum plus slack (30) is below the
claimed lower bound `link.length` (50). -/
theorem c3_length_sum_counterexample :
    feasible cfgSlack0 [linkZ] [fiberZ] xAll = true ∧
    isMulticore linkZ.conn = false ∧
    ¬ (linkZ.conn.length
        ≤ sumOver (fun f => f.conn.length) (assigned [fiberZ] xAll linkZ) + cfgSlack0.slack) := by
  decide

/-- C3 (amended): for every non-multicore link, every feasible solution
of the built model keeps the sum of the assigned fibers' effective
lengths (`len(fiber)`, which is 0 when the core count is nonpositive)
plus the slack constant within `[len(link), len(link) * maxLengthFactor]`
(again with the link's effective length), and assigns between 1 and
`maxChain` fibers. -/
theorem c3_effective_length_bounds (cfg : Config) (links : List Link) (fibers : List Fiber)
    (x : Fiber → Link → Bool) (l : Link) (hl : l ∈ links)
    (hmc : isMulticore l.conn = false)
    (hfeas : feasible cfg links fibers x = true) :
    (connLen l.conn ≤ sumOver (fun f => connLen f.conn) (assigned fibers x l) + cfg.slack ∧
      sumOver (fun f => connLen f.conn) (assigned fibers x l) + cfg.slack
        ≤ connLen l.conn * cfg.maxLength) ∧
    (1 ≤ (assigned fibers x l).length ∧
      ((assigned fibers x l).length : Int) ≤ cfg.maxChain) := by
  have hlink := List.all_eq_true.mp (feasible_split hfeas).2.2 l hl
  rw [hmc] at hlink
  rw [if_neg (by decide)] at hlink
  simp only [singleOk, Bool.and_eq_true, decide_eq_true_eq] at hlink
  obtain ⟨⟨⟨h1, h2⟩, h3⟩, h4⟩ := hlink
  have hS : sumOver (fun f => connLen f.conn * b2i (x f l)) fibers
      = sumOver (fun f => connLen f.conn) (assigned fibers x l) := by
    rw [sumOver_weight]
    rfl
  have hcount : sumOver (fun f => b2i (x f l)) fibers
      = ((assigned fibers x l).length : Int) := by
    rw [sumOver_count]
    rfl
  rw [hS] at h1 h2
  rw [hcount] at h3 h4
  refine ⟨⟨h1, h2⟩, ?_, h4⟩
  omega

/-- Witness for C3 (amended) at the spec's scenario B: link needing 1
core over 50 m, fibers of 20 m and 25 m both assigned, default slack 5:
20 + 25 + 5 = 50 meets the lower bound and 2 fibers respect the chain
limit. -/
theorem c3_effective_length_bounds_witness :
    (connLen linkB.conn
        ≤ sumOver (fun f => connLen f.conn) (assigned [fiberB1, fiberB2] xAll linkB)
            + defaultConfig.slack ∧
      sumOver (fun f => connLen f.conn) (assigned [fiberB1, fiberB2] xAll linkB)
          + defaultConfig.slack
        ≤ connLen linkB.conn * defaultConfig.maxLength) ∧
    (1 ≤ (assigned [fiberB1, fiberB2] xAll linkB).length ∧
      ((assigned [fiberB1, fiberB2] xAll linkB).length : Int) ≤ defaultConfig.maxChain) :=
  c3_effective_length_bounds defaultConfig [linkB] [fiberB1, fiberB2] xAll linkB
    (by decide) (by decide) (by decide)

/-- C4: the assignment matrix is total (the embedding's decision
variables range over all pairs), and whenever a fiber is strictly worse
than a link in both core count and length, the forced-false constraint
makes every feasible solution leave that pair unassigned, so the fiber
never appears in that link's assigned list. -/
theorem c4_pruned_pair_never_assigned (cfg : Config) (links : List Link) (fibers : List Fiber)
    (x : Fiber → Link → Bool) (f : Fiber) (l : Link)
    (hf : f ∈ fibers) (hl : l ∈ links)
    (hfeas : feasible cfg links fibers x = true)
    (hc : f.conn.cores < l.conn.cores) (hlen : f.conn.length < l.conn.length) :
    x f l = false ∧ f ∉ assigned fibers x l := by
  have hrow := List.all_eq_true.mp (feasible_split hfeas).1 f hf
  have hcell := List.all_eq_true.mp hrow l hl
  have hlt : connLt f.conn l.conn = true := by
    simp [connLt, hc, hlen]
  rw [hlt] at hcell
  simp only [Bool.not_true, Bool.false_or, Bool.not_eq_true'] at hcell
  refine ⟨hcell, ?_⟩
  intro hmem
  simp [assigned, List.mem_filter, hcell] at hmem

unseal Rat.mul Rat.inv Rat.add Rat.sub in
/-- Witness for C4: fiber F2 (2 cores, 60 m) is dominated by the link
needing 4 cores over 100 m, so in the feasible scenario-A solution it is
unassigned there. -/
theorem c4_pruned_pair_never_assigned_witness :
    xOnlyF1 fiberF2 linkA = false ∧ fiberF2 ∉ assigned [fiberF1, fiberF2] xOnlyF1 linkA :=
  c4_pruned_pair_never_assigned defaultConfig [linkA] [fiberF1, fiberF2] xOnlyF1 fiberF2 linkA
    (by decide) (by decide) (by decide) (by decide) (by decide)

/-- C5: in every feasible solution of the built model each fiber is
assigned to at most one link, i.e. it appears in at most one link's
assigned list. -/
theorem c5_fiber_at_most_one_link (cfg : Config) (links : List Link) (fibers : List Fiber)
    (x : Fiber → Link → Bool) (f : Fiber) (hf : f ∈ fibers)
    (hfeas : feasible cfg links fibers x = true) :
    (links.filter fun l => x f l).length ≤ 1 := by
  have h := List.all_eq_true.mp (feasible_split hfeas).2.1 f hf
  rw [decide_eq_true_eq, sumOver_count] at h
  exact_mod_cast h

unseal Rat.mul Rat.inv Rat.add Rat.sub in
/-- Witness for C5 in the scenario-A solution: F1 is assigned to exactly
one of the links. -/
theorem c5_fiber_at_most_one_link_witness :
    ([linkA].filter fun l => xOnlyF1 fiberF1 l).length ≤ 1 :=
  c5_fiber_at_most_one_link defaultConfig [linkA] [fiberF1, fiberF2] xOnlyF1 fiberF1
    (by decide) (by decide)

unseal Rat.mul Rat.inv Rat.add Rat.sub in
/-- C6: the tier choice matches the claim, but by Python precedence the
source increments the tier count by `fiberCount - (maxCore / tierSize)`,
not by `(fiberCount - 1) * (maxCore / tierSize)`: with two fibers and a
maximum core count of 3 (tier `minCoupler` = 2), the code adds 1/2 where
the claim prescribes 3/2. -/
theorem c6_coupler_increment_precedence :
    couplerSize defaultConfig 3 = 2 ∧
    couplerIncrement defaultConfig 2 3 = 1/2 ∧
    couplerIncrementIntended defaultConfig 2 3 = 3/2 ∧
    couplerIncrement defaultConfig 2 3 ≠ couplerIncrementIntended defaultConfig 2 3 := by
  decide

unseal Rat.mul Rat.inv Rat.add Rat.sub in
/-- C7: the fold loop writes the folded sum back onto the SMALL tier key
(`coupler_count[key] = coupler_count[min_coupler] + value`), leaving the
`minCoupler` tier's count unchanged: on the tier map 1 ↦ 3, 2 ↦ 5 with
`minCoupler` = 2, the code produces 1 ↦ 8, 2 ↦ 5, the reported tiers show
coupler 2 with count 5 (not the claimed 5 + 3 = 8), and only tiers ≥ 2
are reported. -/
theorem c7_fold_keeps_min_tier_unchanged :
    foldBelowMin 2 [(1, 3), (2, 5)] = [(1, 8), (2, 5)] ∧
    lookupD (foldBelowMin 2 [(1, 3), (2, 5)]) 2 = 5 ∧
    reportedTiers 2 (foldBelowMin 2 [(1, 3), (2, 5)]) = [(2, 5)] := by
  decide

unseal Rat.mul Rat.inv Rat.add Rat.sub in
/-- C8: the fold step as implemented is not idempotent: on the tier map
1 ↦ 3, 2 ↦ 5 with `minCoupler` = 2 one application gives 1 ↦ 8, 2 ↦ 5 and
a second application gives 1 ↦ 13, 2 ↦ 5, a different mapping. -/
theorem c8_fold_not_idempotent :
    foldBelowMin 2 (foldBelowMin 2 [(1, 3), (2, 5)]) = [(1, 13), (2, 5)] ∧
    foldBelowMin 2 (foldBelowMin 2 [(1, 3), (2, 5)]) ≠ foldBelowMin 2 [(1, 3), (2, 5)] := by
  decide

/-- C9: when the solve ends INFEASIBLE or UNKNOWN, the report's status
check evaluates the unbound bare name `status` (a typo for
`self.status`), so producing the report raises a `NameError` instead of
returning the "no solution" result; only the OPTIMAL path, which
short-circuits before the bare name, terminates normally. -/
theorem c9_report_raises_on_no_solution :
    statusGate SolveStatus.infeasibleSol none
        = Except.error "NameError: name status is not defined" ∧
    statusGate SolveStatus.unknownSol none
        = Except.error "NameError: name status is not defined" ∧
    statusGate SolveStatus.optimal none = Except.ok ReportOutcome.fullReport :=
  ⟨rfl, rfl, rfl⟩

/-- C10: model construction is not total: the chain-count constraint
reads the module-level name `working_fibers`, so invoking `Solver.load`
when that name is unbound (any use outside the script's main block)
raises a `NameError` as soon as a non-multicore link is processed, while
the same inputs construct fine when the name is bound. -/
theorem c10_load_raises_outside_main :
    loadOutcome [linkC] none
        = Except.error "NameError: name working_fibers is not defined" ∧
    loadOutcome [linkC] (some [fiberC]) = Except.ok () :=
  ⟨rfl, rfl⟩

end FiberSolver
